import Mathlib

/-!
# EV charger platform: shallow embedding and verification

This file embeds the two HTTP backends of the EV-charger CRUD service —
the Flask implementation (`src/app/app.py`) and the FastAPI implementation
(`src/fastapi_backend/main.py` with `src/fastapi_backend/models.py`) — as
pure Lean functions over an explicit record store, and proves or refutes
the specification's claims about them.

Modelling conventions:
* Timestamps are `Nat` (abstract clock readings); each operation that can
  stamp a time receives the current clock value `now` as an argument.
* The persistent table is a `List Charger`; the storage engine's
  autoincrement primary key is modelled by threading a `nextId`.
* JSON field presence is modelled with `Option`: `none` means the key is
  absent from the request body.
* HTTP responses are modelled by the data they carry: `Except`/`Option`
  failure corresponds to the error status (400/422/404) and success to
  200/201, as noted at each definition.
-/

/-- A persisted charger row.  Mirrors the `Charger` model of
`src/app/app.py` (lines 20–29) and `src/fastapi_backend/models.py`:
`id` integer primary key; `location`, `power`, `type` non-null strings;
`available` boolean; `notes` nullable text; `last_used` nullable
timestamp; `created_at` / `updated_at` timestamps (non-nullable in both
models: their column defaults always fill them at insert). -/
structure Charger where
  id : Nat
  location : String
  available : Bool
  power : String
  type : String
  notes : Option String
  last_used : Option Nat
  created_at : Nat
  updated_at : Nat
deriving DecidableEq, Repr

/-- A JSON create-request body: each field is `some v` when the key is
present with value `v` and `none` when the key is absent. -/
structure CreateData where
  location : Option String
  available : Option Bool
  power : Option String
  type : Option String
  notes : Option String
deriving DecidableEq, Repr

/-- A JSON update-request body (PUT/PATCH): `some v` when the key is
present, `none` when absent.  Mirrors `ChargerUpdate` in
`src/fastapi_backend/main.py` (lines 44–49) and the `in data` checks of
the Flask handler. -/
structure UpdateData where
  location : Option String
  available : Option Bool
  power : Option String
  type : Option String
  notes : Option String
deriving DecidableEq, Repr

/-! ## Flask implementation (`src/app/app.py`) -/

/-- `add_charger` (app.py lines 119–141).  Validation checks only that
the keys `location`, `power`, `type` are PRESENT (`field not in data`),
in that order, returning 400 `{error: "Missing required field: <f>"}`
for the first absent one; an empty-string value passes.  On success the
new row gets `available` defaulting to `true`, `notes` defaulting to the
empty string (`data.get('notes', '')`), and — per the column defaults of
app.py lines 27–29 — `last_used`, `created_at` and `updated_at` all
stamped to the current time.  Returns the (possibly unchanged) store and
the 201 response (`.ok`) or the 400 error body (`.error`). -/
def flask_add_charger (data : CreateData) (store : List Charger)
    (nextId now : Nat) : List Charger × Except String Charger :=
  if data.location = none then
    (store, .error "Missing required field: location")
  else if data.power = none then
    (store, .error "Missing required field: power")
  else if data.type = none then
    (store, .error "Missing required field: type")
  else
    let c : Charger := {
      id := nextId
      location := data.location.getD ""
      available := data.available.getD true
      power := data.power.getD ""
      type := data.type.getD ""
      notes := some (data.notes.getD "")
      last_used := some now
      created_at := now
      updated_at := now }
    (store ++ [c], .ok c)

/-- The field assignments of `update_charger` (app.py lines 149–162):
each field present in the body is written; when the body sets `available`
to `false` the handler also stamps `last_used := now` (lines 152–156),
with NO check of the record's prior `available`. -/
def flask_apply_fields (c : Charger) (d : UpdateData) (now : Nat) : Charger :=
  let c := match d.location with
    | some v => { c with location := v }
    | none => c
  let c := match d.available with
    | some v =>
        let c := { c with available := v }
        if v = false then { c with last_used := some now } else c
    | none => c
  let c := match d.power with
    | some v => { c with power := v }
    | none => c
  let c := match d.type with
    | some v => { c with type := v }
    | none => c
  let c := match d.notes with
    | some v => { c with notes := some v }
    | none => c
  c

/-- The per-record effect of `update_charger` (app.py lines 143–165)
followed by `db.session.commit()`.  At flush time the ORM compares each
written attribute with its loaded value and emits an UPDATE statement
only when some column has a net change; only then does the
`onupdate=datetime.utcnow` column option (app.py line 29) refresh
`updated_at`.  Since the field assignments never touch `updated_at`,
"some column has a net change" is exactly `flask_apply_fields c d now ≠ c`. -/
def flask_apply_update (c : Charger) (d : UpdateData) (now : Nat) : Charger :=
  let c2 := flask_apply_fields c d now
  if c2 = c then c2 else { c2 with updated_at := now }

/-- `update_charger` route (app.py lines 143–165): `get_or_404` then the
per-record update.  `none` in the second component models the 404
response; `some c` the 200 response carrying the updated record. -/
def flask_update_charger (id : Nat) (d : UpdateData) (store : List Charger)
    (now : Nat) : List Charger × Option Charger :=
  match store.find? (fun c => c.id == id) with
  | none => (store, none)
  | some c =>
      (store.map (fun x => if x.id == id then flask_apply_update x d now else x),
       some (flask_apply_update c d now))

/-- `get_charger` (app.py lines 113–117): primary-key lookup, `none`
models the 404 response. -/
def flask_get_charger (id : Nat) (store : List Charger) : Option Charger :=
  store.find? (fun c => c.id == id)

/-- `delete_charger` (app.py lines 167–173): `get_or_404`, then the row
with this primary key is deleted permanently.  `false` in the second
component models the 404 response, `true` the 200 success message. -/
def flask_delete_charger (id : Nat) (store : List Charger) :
    List Charger × Bool :=
  match store.find? (fun c => c.id == id) with
  | none => (store, false)
  | some _ => (store.filter (fun c => !(c.id == id)), true)

/-- Model of Python's `str.lower` (ASCII case folding), written with
`List.map` so that concrete instances evaluate in the kernel; it agrees
with `String.toLower` on every string. -/
def pyLower (s : String) : String := ⟨s.data.map Char.toLower⟩

/-- `get_chargers` (app.py lines 101–111).  The handler reads ONLY the
`available` query parameter; a `type` parameter, modelled by `typeParam`,
is never read and has no effect.  When `available` is present the query
filters on `Charger.available == (available.lower() == 'true')`. -/
def flask_get_chargers (available : Option String) (typeParam : Option String)
    (store : List Charger) : List Charger :=
  match available with
  | none => store
  | some s => store.filter (fun c => c.available == (pyLower s == "true"))

/-- A stats response: mirrors the JSON bodies of app.py lines 191–196 and
main.py lines 273–278.  `chargerTypes` is the group-by dictionary as an
association list in first-occurrence order. -/
structure Stats where
  totalChargers : Nat
  availableChargers : Nat
  unavailableChargers : Nat
  chargerTypes : List (String × Nat)
deriving DecidableEq, Repr

/-- The group-by-`type` count dictionary built by both stats handlers:
one entry per distinct `type` value present, with its occurrence count
over ALL rows. -/
def typeCounts (store : List Charger) : List (String × Nat) :=
  let ts := store.map (fun c => c.type)
  ts.dedup.map (fun t => (t, ts.count t))

/-- `get_charger_stats` (app.py lines 175–196): total count, count of
available rows, unavailable derived as the difference, and the group-by
dictionary. -/
def get_charger_stats (store : List Charger) : Stats :=
  let total := store.length
  let avail := (store.filter (fun c => c.available)).length
  { totalChargers := total
    availableChargers := avail
    unavailableChargers := total - avail
    chargerTypes := typeCounts store }

/-! ## FastAPI implementation (`src/fastapi_backend/main.py`,
`src/fastapi_backend/models.py`) -/

/-- `add_charger` (main.py lines 168–185) behind the `ChargerCreate`
pydantic schema (lines 34–42): `location`, `power`, `type` are required
fields, so an absent one is rejected by validation (`.error ()`, the 422
response) before the handler runs; empty strings pass.  `available`
defaults to `true`, `notes` to `None`.  Per `models.py`, `last_used` has
no default (stays null) while `created_at`/`updated_at` default to the
current time.  Success is the 201 response. -/
def fastapi_add_charger (data : CreateData) (store : List Charger)
    (nextId now : Nat) : List Charger × Except Unit Charger :=
  if data.location = none ∨ data.power = none ∨ data.type = none then
    (store, .error ())
  else
    let c : Charger := {
      id := nextId
      location := data.location.getD ""
      available := data.available.getD true
      power := data.power.getD ""
      type := data.type.getD ""
      notes := data.notes
      last_used := none
      created_at := now
      updated_at := now }
    (store ++ [c], .ok c)

/-- The per-record effect of `update_charger` / `partial_update_charger`
(main.py lines 188–237): `last_used := now` exactly when the body sets
`available` to `false` AND the record's current `available` is `true`
(lines 201–202, checked before the fields are applied); then every
present field is written and `updated_at := now` unconditionally
(line 207). -/
def fastapi_apply_update (c : Charger) (d : UpdateData) (now : Nat) : Charger :=
  let c :=
    if d.available = some false ∧ c.available = true then
      { c with last_used := some now }
    else c
  let c := match d.location with
    | some v => { c with location := v }
    | none => c
  let c := match d.available with
    | some v => { c with available := v }
    | none => c
  let c := match d.power with
    | some v => { c with power := v }
    | none => c
  let c := match d.type with
    | some v => { c with type := v }
    | none => c
  let c := match d.notes with
    | some v => { c with notes := some v }
    | none => c
  { c with updated_at := now }

/-- `update_charger` route (main.py lines 188–211): first-match lookup,
404 (`none`) when the id does not exist, else the per-record update. -/
def fastapi_update_charger (id : Nat) (d : UpdateData) (store : List Charger)
    (now : Nat) : List Charger × Option Charger :=
  match store.find? (fun c => c.id == id) with
  | none => (store, none)
  | some c =>
      (store.map (fun x => if x.id == id then fastapi_apply_update x d now else x),
       some (fastapi_apply_update c d now))

/-- `get_charger` (main.py lines 156–165): lookup by id, `none` models
the 404 response. -/
def fastapi_get_charger (id : Nat) (store : List Charger) : Option Charger :=
  store.find? (fun c => c.id == id)

/-- `delete_charger` (main.py lines 240–252): 404 when absent, else hard
delete of the row with this primary key. -/
def fastapi_delete_charger (id : Nat) (store : List Charger) :
    List Charger × Bool :=
  match store.find? (fun c => c.id == id) with
  | none => (store, false)
  | some _ => (store.filter (fun c => !(c.id == id)), true)

/-- `get_chargers` (main.py lines 135–153): optional `available : bool`
and `type : str` query parameters (the framework parses the boolean,
accepting case-insensitive true/false spellings); each supplied filter is
applied by exact equality. -/
def fastapi_get_chargers (available : Option Bool) (ty : Option String)
    (store : List Charger) : List Charger :=
  let q := match available with
    | none => store
    | some b => store.filter (fun c => c.available == b)
  match ty with
  | none => q
  | some t => q.filter (fun c => c.type == t)

/-- `get_charger_stats` (main.py lines 255–278): the same computation as
the Flask stats handler. -/
def fastapi_get_charger_stats (store : List Charger) : Stats :=
  let total := store.length
  let avail := (store.filter (fun c => c.available)).length
  { totalChargers := total
    availableChargers := avail
    unavailableChargers := total - avail
    chargerTypes := typeCounts store }

/-! ## Operation traces

To state lifetime invariants (claim C8) we run sequences of mutating
operations, each paired with the clock value at which it executes. -/

/-- The database state: the table plus the next autoincrement id. -/
structure DBState where
  store : List Charger
  nextId : Nat
deriving DecidableEq, Repr

/-- A mutating API operation. -/
inductive Op where
  | create (data : CreateData)
  | update (id : Nat) (data : UpdateData)
  | delete (id : Nat)
deriving DecidableEq, Repr

/-- One Flask request against the database state at clock `now`. -/
def flask_step (s : DBState) (op : Op) (now : Nat) : DBState :=
  match op with
  | .create d =>
      let r := flask_add_charger d s.store s.nextId now
      match r.2 with
      | .ok _ => { store := r.1, nextId := s.nextId + 1 }
      | .error _ => { s with store := r.1 }
  | .update id d => { s with store := (flask_update_charger id d s.store now).1 }
  | .delete id => { s with store := (flask_delete_charger id s.store).1 }

/-- Run a list of Flask requests, each tagged with its clock value. -/
def flask_run (s : DBState) (ops : List (Op × Nat)) : DBState :=
  match ops with
  | [] => s
  | (op, now) :: rest => flask_run (flask_step s op now) rest

/-- One FastAPI request against the database state at clock `now`. -/
def fastapi_step (s : DBState) (op : Op) (now : Nat) : DBState :=
  match op with
  | .create d =>
      let r := fastapi_add_charger d s.store s.nextId now
      match r.2 with
      | .ok _ => { store := r.1, nextId := s.nextId + 1 }
      | .error _ => { s with store := r.1 }
  | .update id d => { s with store := (fastapi_update_charger id d s.store now).1 }
  | .delete id => { s with store := (fastapi_delete_charger id s.store).1 }

/-- Run a list of FastAPI requests, each tagged with its clock value. -/
def fastapi_run (s : DBState) (ops : List (Op × Nat)) : DBState :=
  match ops with
  | [] => s
  | (op, now) :: rest => fastapi_run (fastapi_step s op now) rest

/-- The clock is monotone along a trace: starting from reading `t`,
each request's clock value is at least the previous one. -/
def Mono (t : Nat) : List (Op × Nat) → Prop
  | [] => True
  | (_, n) :: rest => t ≤ n ∧ Mono n rest

/-- `Mono` is decidable, so concrete traces can be checked by `decide`. -/
def decMono : ∀ (t : Nat) (ops : List (Op × Nat)), Decidable (Mono t ops)
  | _, [] => .isTrue trivial
  | t, (_, n) :: rest =>
      have : Decidable (Mono n rest) := decMono n rest
      inferInstanceAs (Decidable (t ≤ n ∧ Mono n rest))

instance (t : Nat) (ops : List (Op × Nat)) : Decidable (Mono t ops) :=
  decMono t ops

/-! ## Sample data for concrete instances -/

/-- A sample available charger (first seed row, app.py lines 51–57). -/
def sampleAvail : Charger :=
  { id := 1
    location := "Downtown Parking Garage"
    available := true
    power := "50kW"
    type := "CCS"
    notes := some "Located near the elevator on level 2"
    last_used := none
    created_at := 0
    updated_at := 0 }

/-- A sample unavailable charger (fifth seed row, app.py lines 79–85). -/
def sampleUnavail : Charger :=
  { id := 2
    location := "Central Park - East Entrance"
    available := false
    power := "7kW"
    type := "Type 1"
    notes := some "Solar powered charger"
    last_used := some 0
    created_at := 0
    updated_at := 0 }

/-- The update body `{}` carrying no fields. -/
def emptyUpdate : UpdateData :=
  { location := none, available := none, power := none, type := none,
    notes := none }

/-- The update body `{"available": false}`. -/
def setUnavailable : UpdateData :=
  { location := none, available := some false, power := none, type := none,
    notes := none }

/-- The update body `{"notes": "serviced"}`. -/
def setNotes : UpdateData :=
  { location := none, available := none, power := none, type := none,
    notes := some "serviced" }

/-- The create body of the spec's end-to-end scenario:
`{location:"Lot A", power:"50kW", type:"CCS"}`. -/
def createLotA : CreateData :=
  { location := some "Lot A", available := none, power := some "50kW",
    type := some "CCS", notes := none }

/-- A create body whose `location` is present but the empty string. -/
def createEmptyLoc : CreateData :=
  { location := some "", available := none, power := some "50kW",
    type := some "CCS", notes := none }

/-- A create body with `location` absent. -/
def createNoLoc : CreateData :=
  { location := none, available := none, power := some "50kW",
    type := some "CCS", notes := none }

/-- A small demonstration trace: create, mark unavailable, delete. -/
def demoOps : List (Op × Nat) :=
  [(.create createLotA, 1), (.update 1 setUnavailable, 2), (.delete 1, 3)]

/-- The update body that rewrites `location` with its current value in
`sampleUnavail`: a supplied but no-op field set. -/
def setSameLocation : UpdateData :=
  { location := some "Central Park - East Entrance", available := none,
    power := none, type := none, notes := none }

/-- The timestamp invariant carried along a trace: every row's
`created_at` is at most its `updated_at`, which is at most the clock. -/
def ChronoInv (t : Nat) (store : List Charger) : Prop :=
  ∀ c ∈ store, c.created_at ≤ c.updated_at ∧ c.updated_at ≤ t

/-! ## Projection lemmas for the update operations -/

/-- The field assignments never touch `created_at`. -/
lemma flask_fields_created_at (c : Charger) (d : UpdateData) (now : Nat) :
    (flask_apply_fields c d now).created_at = c.created_at := by
  rcases d with ⟨dl, da, dp, dt, dn⟩
  cases dl <;> cases da <;> cases dp <;> cases dt <;> cases dn <;>
    simp [flask_apply_fields] <;> split <;> simp

/-- The field assignments never touch `updated_at`. -/
lemma flask_fields_updated_at (c : Charger) (d : UpdateData) (now : Nat) :
    (flask_apply_fields c d now).updated_at = c.updated_at := by
  rcases d with ⟨dl, da, dp, dt, dn⟩
  cases dl <;> cases da <;> cases dp <;> cases dt <;> cases dn <;>
    simp [flask_apply_fields] <;> split <;> simp

/-- The Flask field assignments rewrite `last_used` exactly when the body
sets `available` to `false`, with no regard to the prior value. -/
lemma flask_fields_last_used (c : Charger) (d : UpdateData) (now : Nat) :
    (flask_apply_fields c d now).last_used
      = if d.available = some false then some now else c.last_used := by
  rcases d with ⟨dl, da, dp, dt, dn⟩
  cases dl <;> rcases da with _ | b <;> (try cases b) <;> cases dp <;>
    cases dt <;> cases dn <;> simp [flask_apply_fields]

/-- Fields absent from the body are left untouched by the Flask field
assignments. -/
lemma flask_fields_frame (c : Charger) (d : UpdateData) (now : Nat) :
    (d.location = none → (flask_apply_fields c d now).location = c.location)
    ∧ (d.available = none → (flask_apply_fields c d now).available = c.available)
    ∧ (d.power = none → (flask_apply_fields c d now).power = c.power)
    ∧ (d.type = none → (flask_apply_fields c d now).type = c.type)
    ∧ (d.notes = none → (flask_apply_fields c d now).notes = c.notes) := by
  rcases d with ⟨dl, da, dp, dt, dn⟩
  cases dl <;> rcases da with _ | b <;> (try cases b) <;> cases dp <;>
    cases dt <;> cases dn <;> simp [flask_apply_fields]

/-- The commit only ever touches `updated_at`: every other projection of
`flask_apply_update` agrees with the plain field assignments. -/
lemma flask_commit_proj (c : Charger) (d : UpdateData) (now : Nat) :
    (flask_apply_update c d now).id = (flask_apply_fields c d now).id
    ∧ (flask_apply_update c d now).location = (flask_apply_fields c d now).location
    ∧ (flask_apply_update c d now).available = (flask_apply_fields c d now).available
    ∧ (flask_apply_update c d now).power = (flask_apply_fields c d now).power
    ∧ (flask_apply_update c d now).type = (flask_apply_fields c d now).type
    ∧ (flask_apply_update c d now).notes = (flask_apply_fields c d now).notes
    ∧ (flask_apply_update c d now).last_used = (flask_apply_fields c d now).last_used
    ∧ (flask_apply_update c d now).created_at = (flask_apply_fields c d now).created_at := by
  by_cases h : flask_apply_fields c d now = c <;> simp [flask_apply_update, h]

/-- `updated_at` after a Flask update: refreshed to `now` exactly when
some column had a net change, otherwise kept. -/
lemma flask_up_updated_at (c : Charger) (d : UpdateData) (now : Nat) :
    (flask_apply_update c d now).updated_at
      = if flask_apply_fields c d now = c then c.updated_at else now := by
  by_cases h : flask_apply_fields c d now = c <;>
    simp [flask_apply_update, h, flask_fields_updated_at]

/-- `created_at` is never changed by a Flask update. -/
lemma flask_up_created_at (c : Charger) (d : UpdateData) (now : Nat) :
    (flask_apply_update c d now).created_at = c.created_at := by
  rw [(flask_commit_proj c d now).2.2.2.2.2.2.2, flask_fields_created_at]

/-- `last_used` after a Flask update: stamped to `now` exactly when the
body sets `available` to `false`, regardless of the prior value. -/
lemma flask_up_last_used (c : Charger) (d : UpdateData) (now : Nat) :
    (flask_apply_update c d now).last_used
      = if d.available = some false then some now else c.last_used := by
  rw [(flask_commit_proj c d now).2.2.2.2.2.2.1, flask_fields_last_used]

/-- Fields absent from the body survive a Flask update unchanged. -/
lemma flask_up_frame (c : Charger) (d : UpdateData) (now : Nat) :
    (d.location = none → (flask_apply_update c d now).location = c.location)
    ∧ (d.available = none → (flask_apply_update c d now).available = c.available)
    ∧ (d.power = none → (flask_apply_update c d now).power = c.power)
    ∧ (d.type = none → (flask_apply_update c d now).type = c.type)
    ∧ (d.notes = none → (flask_apply_update c d now).notes = c.notes) := by
  obtain ⟨-, hl, ha, hp, ht, hn, -, -⟩ := flask_commit_proj c d now
  obtain ⟨f1, f2, f3, f4, f5⟩ := flask_fields_frame c d now
  exact ⟨fun h => hl.trans (f1 h), fun h => ha.trans (f2 h),
    fun h => hp.trans (f3 h), fun h => ht.trans (f4 h),
    fun h => hn.trans (f5 h)⟩

/-- `created_at` is never changed by a FastAPI update. -/
lemma fastapi_up_created_at (c : Charger) (d : UpdateData) (now : Nat) :
    (fastapi_apply_update c d now).created_at = c.created_at := by
  rcases d with ⟨dl, da, dp, dt, dn⟩
  cases dl <;> cases da <;> cases dp <;> cases dt <;> cases dn <;>
    simp [fastapi_apply_update] <;> split <;> simp

/-- `last_used` after a FastAPI update: stamped exactly on the
availability transition true→false requested by the body. -/
lemma fastapi_up_last_used (c : Charger) (d : UpdateData) (now : Nat) :
    (fastapi_apply_update c d now).last_used
      = if d.available = some false ∧ c.available = true then some now
        else c.last_used := by
  rcases d with ⟨dl, da, dp, dt, dn⟩
  cases dl <;> rcases da with _ | b <;> (try cases b) <;> cases dp <;>
    cases dt <;> cases dn <;> simp [fastapi_apply_update] <;>
    split <;> simp_all

/-- A FastAPI update always refreshes `updated_at` to the current time. -/
lemma fastapi_up_updated_at (c : Charger) (d : UpdateData) (now : Nat) :
    (fastapi_apply_update c d now).updated_at = now := by
  rcases d with ⟨dl, da, dp, dt, dn⟩
  cases dl <;> cases da <;> cases dp <;> cases dt <;> cases dn <;>
    simp [fastapi_apply_update]

/-- Fields absent from the body survive a FastAPI update unchanged. -/
lemma fastapi_up_frame (c : Charger) (d : UpdateData) (now : Nat) :
    (d.location = none → (fastapi_apply_update c d now).location = c.location)
    ∧ (d.available = none → (fastapi_apply_update c d now).available = c.available)
    ∧ (d.power = none → (fastapi_apply_update c d now).power = c.power)
    ∧ (d.type = none → (fastapi_apply_update c d now).type = c.type)
    ∧ (d.notes = none → (fastapi_apply_update c d now).notes = c.notes) := by
  rcases d with ⟨dl, da, dp, dt, dn⟩
  cases dl <;> rcases da with _ | b <;> (try cases b) <;> cases dp <;>
    cases dt <;> cases dn <;> simp [fastapi_apply_update] <;> split <;> simp

lemma flask_add_ok (d : CreateData) (store : List Charger) (nextId now : Nat)
    (c : Charger) (h : (flask_add_charger d store nextId now).2 = .ok c) :
    c.created_at = now ∧ c.updated_at = now ∧ c.id = nextId := by
  unfold flask_add_charger at h
  split at h
  · simp at h
  · split at h
    · simp at h
    · split at h
      · simp at h
      · simp at h
        subst h
        exact ⟨rfl, rfl, rfl⟩

lemma fastapi_add_ok (d : CreateData) (store : List Charger) (nextId now : Nat)
    (c : Charger) (h : (fastapi_add_charger d store nextId now).2 = .ok c) :
    c.created_at = now ∧ c.updated_at = now ∧ c.id = nextId := by
  unfold fastapi_add_charger at h
  split at h
  · simp at h
  · simp at h
    subst h
    exact ⟨rfl, rfl, rfl⟩

lemma flask_add_mem (d : CreateData) (store : List Charger) (nextId now : Nat)
    (c : Charger) (hc : c ∈ (flask_add_charger d store nextId now).1) :
    c ∈ store ∨ (c.created_at = now ∧ c.updated_at = now) := by
  unfold flask_add_charger at hc
  split at hc
  · exact .inl hc
  · split at hc
    · exact .inl hc
    · split at hc
      · exact .inl hc
      · simp at hc
        rcases hc with hc | hc
        · exact .inl hc
        · subst hc
          exact .inr ⟨rfl, rfl⟩

lemma fastapi_add_mem (d : CreateData) (store : List Charger) (nextId now : Nat)
    (c : Charger) (hc : c ∈ (fastapi_add_charger d store nextId now).1) :
    c ∈ store ∨ (c.created_at = now ∧ c.updated_at = now) := by
  unfold fastapi_add_charger at hc
  split at hc
  · exact .inl hc
  · simp at hc
    rcases hc with hc | hc
    · exact .inl hc
    · subst hc
      exact .inr ⟨rfl, rfl⟩

lemma flask_update_mem (id : Nat) (d : UpdateData) (store : List Charger)
    (now : Nat) (c : Charger)
    (hc : c ∈ (flask_update_charger id d store now).1) :
    c ∈ store ∨ ∃ x ∈ store, c = flask_apply_update x d now := by
  unfold flask_update_charger at hc
  split at hc
  · exact .inl hc
  · simp only [List.mem_map] at hc
    obtain ⟨x, hx, hxc⟩ := hc
    by_cases hid : (x.id == id) = true
    · rw [if_pos hid] at hxc
      exact .inr ⟨x, hx, hxc.symm⟩
    · rw [if_neg hid] at hxc
      exact .inl (hxc ▸ hx)

lemma fastapi_update_mem (id : Nat) (d : UpdateData) (store : List Charger)
    (now : Nat) (c : Charger)
    (hc : c ∈ (fastapi_update_charger id d store now).1) :
    c ∈ store ∨ ∃ x ∈ store, c = fastapi_apply_update x d now := by
  unfold fastapi_update_charger at hc
  split at hc
  · exact .inl hc
  · simp only [List.mem_map] at hc
    obtain ⟨x, hx, hxc⟩ := hc
    by_cases hid : (x.id == id) = true
    · rw [if_pos hid] at hxc
      exact .inr ⟨x, hx, hxc.symm⟩
    · rw [if_neg hid] at hxc
      exact .inl (hxc ▸ hx)

lemma flask_delete_mem (id : Nat) (store : List Charger) (c : Charger)
    (hc : c ∈ (flask_delete_charger id store).1) : c ∈ store := by
  unfold flask_delete_charger at hc
  split at hc
  · exact hc
  · exact (List.mem_filter.mp hc).1

lemma fastapi_delete_mem (id : Nat) (store : List Charger) (c : Charger)
    (hc : c ∈ (fastapi_delete_charger id store).1) : c ∈ store := by
  unfold fastapi_delete_charger at hc
  split at hc
  · exact hc
  · exact (List.mem_filter.mp hc).1

lemma flask_step_mem (s : DBState) (op : Op) (now : Nat) (c : Charger)
    (hc : c ∈ (flask_step s op now).store) :
    c ∈ s.store ∨ (c.created_at = now ∧ c.updated_at = now)
    ∨ ∃ x d, x ∈ s.store ∧ c = flask_apply_update x d now := by
  cases op with
  | create d =>
      simp only [flask_step] at hc
      split at hc
      · exact (flask_add_mem d s.store s.nextId now c hc).imp id .inl
      · exact (flask_add_mem d s.store s.nextId now c hc).imp id .inl
  | update id d =>
      simp only [flask_step] at hc
      rcases flask_update_mem id d s.store now c hc with h | ⟨x, hx, hxc⟩
      · exact .inl h
      · exact .inr (.inr ⟨x, d, hx, hxc⟩)
  | delete id =>
      simp only [flask_step] at hc
      exact .inl (flask_delete_mem id s.store c hc)

lemma fastapi_step_mem (s : DBState) (op : Op) (now : Nat) (c : Charger)
    (hc : c ∈ (fastapi_step s op now).store) :
    c ∈ s.store ∨ (c.created_at = now ∧ c.updated_at = now)
    ∨ ∃ x d, x ∈ s.store ∧ c = fastapi_apply_update x d now := by
  cases op with
  | create d =>
      simp only [fastapi_step] at hc
      split at hc
      · exact (fastapi_add_mem d s.store s.nextId now c hc).imp id .inl
      · exact (fastapi_add_mem d s.store s.nextId now c hc).imp id .inl
  | update id d =>
      simp only [fastapi_step] at hc
      rcases fastapi_update_mem id d s.store now c hc with h | ⟨x, hx, hxc⟩
      · exact .inl h
      · exact .inr (.inr ⟨x, d, hx, hxc⟩)
  | delete id =>
      simp only [fastapi_step] at hc
      exact .inl (fastapi_delete_mem id s.store c hc)

lemma flask_step_inv (s : DBState) (op : Op) (t now : Nat)
    (h : ChronoInv t s.store) (ht : t ≤ now) : ChronoInv now (flask_step s op now).store := by
  intro c hc
  rcases flask_step_mem s op now c hc with hm | ⟨h1, h2⟩ | ⟨x, d, hx, rfl⟩
  · have := h c hm
    omega
  · omega
  · have := h x hx
    have hcr := flask_up_created_at x d now
    have hup := flask_up_updated_at x d now
    rw [hcr, hup]
    split <;> omega

lemma fastapi_step_inv (s : DBState) (op : Op) (t now : Nat)
    (h : ChronoInv t s.store) (ht : t ≤ now) : ChronoInv now (fastapi_step s op now).store := by
  intro c hc
  rcases fastapi_step_mem s op now c hc with hm | ⟨h1, h2⟩ | ⟨x, d, hx, rfl⟩
  · have := h c hm
    omega
  · omega
  · have := h x hx
    have hcr := fastapi_up_created_at x d now
    have hup := fastapi_up_updated_at x d now
    rw [hcr, hup]
    omega

lemma flask_run_inv (ops : List (Op × Nat)) : ∀ (s : DBState) (t : Nat),
    ChronoInv t s.store → Mono t ops →
    ∀ c ∈ (flask_run s ops).store, c.created_at ≤ c.updated_at := by
  induction ops with
  | nil =>
      intro s t h _ c hc
      exact (h c hc).1
  | cons p rest ih =>
      rcases p with ⟨op, n⟩
      intro s t h hm c hc
      exact ih (flask_step s op n) n (flask_step_inv s op t n h hm.1) hm.2 c hc

lemma fastapi_run_inv (ops : List (Op × Nat)) : ∀ (s : DBState) (t : Nat),
    ChronoInv t s.store → Mono t ops →
    ∀ c ∈ (fastapi_run s ops).store, c.created_at ≤ c.updated_at := by
  induction ops with
  | nil =>
      intro s t h _ c hc
      exact (h c hc).1
  | cons p rest ih =>
      rcases p with ⟨op, n⟩
      intro s t h hm c hc
      exact ih (fastapi_step s op n) n (fastapi_step_inv s op t n h hm.1) hm.2 c hc

/-! ## Claims -/

/-- Claim C7: for every state of the record table, the stats result has
`total = available_count + unavailable_count` (with `unavailable_count`
the derived difference, equal to the directly counted unavailable rows);
`type_counts` has one entry per distinct `type` value present, each entry
counting ALL records of that type regardless of availability; the values
of `type_counts` sum to `total`; and the FastAPI stats handler computes
the same result as the Flask one. -/
theorem C7_stats_algebra (store : List Charger) :
    (get_charger_stats store).totalChargers
        = (get_charger_stats store).availableChargers
          + (get_charger_stats store).unavailableChargers
    ∧ ((get_charger_stats store).chargerTypes.map Prod.snd).sum
        = (get_charger_stats store).totalChargers
    ∧ (get_charger_stats store).chargerTypes.map Prod.fst
        = (store.map (fun c => c.type)).dedup
    ∧ (∀ t n, (t, n) ∈ (get_charger_stats store).chargerTypes →
        n = (store.map (fun c => c.type)).count t)
    ∧ (get_charger_stats store).unavailableChargers
        = (store.filter (fun c => !c.available)).length
    ∧ fastapi_get_charger_stats store = get_charger_stats store := by
  refine ⟨?_, ?_, ?_, ?_, ?_, rfl⟩
  · have h := List.length_filter_le (fun c => c.available) store
    simp only [get_charger_stats]
    omega
  · simp only [get_charger_stats, typeCounts, List.map_map]
    have hc : (Prod.snd ∘ fun t => (t, List.count t (store.map (fun c => c.type))))
        = fun t => List.count t (store.map (fun c => c.type)) := rfl
    rw [hc, List.sum_map_count_dedup_eq_length, List.length_map]
  · simp only [get_charger_stats, typeCounts, List.map_map]
    have hc : (Prod.fst ∘ fun t => (t, List.count t (store.map (fun c => c.type))))
        = id := rfl
    rw [hc, List.map_id]
  · intro t n hmem
    simp only [get_charger_stats, typeCounts, List.mem_map] at hmem
    obtain ⟨a, _, heq⟩ := hmem
    obtain ⟨rfl, rfl⟩ := Prod.mk.injEq .. ▸ heq
    rfl
  · have h := List.length_eq_length_filter_add (l := store) (fun c => c.available)
    simp only [get_charger_stats]
    omega

/-- Witness for C7 at a concrete store: the entry for type CCS counts one
row, matching the occurrence count over the whole table. -/
theorem C7_witness :
    (1 : Nat) = (([sampleAvail, sampleUnavail]).map (fun c => c.type)).count "CCS" :=
  (C7_stats_algebra [sampleAvail, sampleUnavail]).2.2.2.1 "CCS" 1 (by decide)

/-- Claim C9: `get`, `update` and `delete` all answer 404 (modelled by
`none`/`false`) when no row with the requested id exists; a successful
delete removes the row permanently, so a subsequent get by the same id
answers 404 and no row with that id remains in the table — in both
implementations. -/
theorem C9_not_found (store : List Charger) (id now : Nat) (d : UpdateData) :
    (flask_get_charger id store = none →
        flask_update_charger id d store now = (store, none)
        ∧ flask_delete_charger id store = (store, false)
        ∧ fastapi_get_charger id store = none
        ∧ fastapi_update_charger id d store now = (store, none)
        ∧ fastapi_delete_charger id store = (store, false))
    ∧ ((flask_delete_charger id store).2 = true →
        flask_get_charger id (flask_delete_charger id store).1 = none
        ∧ ∀ c ∈ (flask_delete_charger id store).1, c.id ≠ id)
    ∧ ((fastapi_delete_charger id store).2 = true →
        fastapi_get_charger id (fastapi_delete_charger id store).1 = none
        ∧ ∀ c ∈ (fastapi_delete_charger id store).1, c.id ≠ id) := by
  refine ⟨?_, ?_, ?_⟩
  · intro h
    have h' : store.find? (fun c => c.id == id) = none := h
    simp [flask_update_charger, flask_delete_charger, fastapi_get_charger,
      fastapi_update_charger, fastapi_delete_charger, h']
  · intro h
    rcases hf : store.find? (fun c => c.id == id) with _ | c
    · unfold flask_delete_charger at h
      rw [hf] at h
      simp at h
    · constructor
      · have heq : flask_get_charger id (flask_delete_charger id store).1
            = (store.filter (fun c => !(c.id == id))).find? (fun c => c.id == id) := by
          simp [flask_delete_charger, hf, flask_get_charger]
        rw [heq, List.find?_eq_none]
        intro x hx
        have hx2 := (List.mem_filter.mp hx).2
        simp at hx2
        simp [hx2]
      · intro x hx
        unfold flask_delete_charger at hx
        rw [hf] at hx
        simp only [List.mem_filter, Bool.not_eq_true'] at hx
        exact beq_eq_false_iff_ne.mp hx.2
  · intro h
    rcases hf : store.find? (fun c => c.id == id) with _ | c
    · unfold fastapi_delete_charger at h
      rw [hf] at h
      simp at h
    · constructor
      · have heq : fastapi_get_charger id (fastapi_delete_charger id store).1
            = (store.filter (fun c => !(c.id == id))).find? (fun c => c.id == id) := by
          simp [fastapi_delete_charger, hf, fastapi_get_charger]
        rw [heq, List.find?_eq_none]
        intro x hx
        have hx2 := (List.mem_filter.mp hx).2
        simp at hx2
        simp [hx2]
      · intro x hx
        unfold fastapi_delete_charger at hx
        rw [hf] at hx
        simp only [List.mem_filter, Bool.not_eq_true'] at hx
        exact beq_eq_false_iff_ne.mp hx.2

/-- Witness for C9: id 99 is absent so the update answers 404, and after
deleting id 1 a get of id 1 answers 404. -/
theorem C9_witness :
    flask_update_charger 99 emptyUpdate [sampleAvail, sampleUnavail] 5
      = ([sampleAvail, sampleUnavail], none)
    ∧ flask_get_charger 1 (flask_delete_charger 1 [sampleAvail, sampleUnavail]).1
      = none :=
  ⟨((C9_not_found [sampleAvail, sampleUnavail] 99 5 emptyUpdate).1 (by decide)).1,
   ((C9_not_found [sampleAvail, sampleUnavail] 1 5 emptyUpdate).2.1 (by decide)).1⟩

/-- Claim C10: in the Flask implementation, any value of the `available`
query parameter whose lowercase form is not "true" — "banana", "0",
"false", … — makes the list operation filter for unavailable records
(`available = false`); the request is neither rejected nor left
unfiltered. -/
theorem C10_nontrue_filters_false (s : String) (tp : Option String)
    (store : List Charger) (h : pyLower s ≠ "true") :
    flask_get_chargers (some s) tp store
      = store.filter (fun c => c.available == false) := by
  have hb : (pyLower s == "true") = false := beq_eq_false_iff_ne.mpr h
  simp [flask_get_chargers, hb]

/-- Witness for C10 at the parameter value "banana". -/
theorem C10_witness :
    pyLower "banana" ≠ "true"
    ∧ flask_get_chargers (some "banana") none [sampleAvail, sampleUnavail]
      = ([sampleAvail, sampleUnavail]).filter (fun c => c.available == false) :=
  ⟨by decide,
   C10_nontrue_filters_false "banana" none [sampleAvail, sampleUnavail] (by decide)⟩

/-- Counterexample to claim C1 as stated: in the Flask implementation an
update that sets `available` from false to false does NOT leave
`last_used` unchanged — it is restamped to the current time (the handler
checks only the requested value, not the prior one). -/
theorem C1_counterexample :
    sampleUnavail.available = false
    ∧ sampleUnavail.last_used = some 0
    ∧ (flask_apply_update sampleUnavail setUnavailable 5).last_used = some 5 := by
  decide

/-- Claim C1 (amended): in the FastAPI implementation `last_used` is set
to the current time iff the request sets `available` to false while the
record's current `available` is true; in the Flask implementation it is
set whenever the request sets `available` to false, regardless of the
prior value (so false→false also restamps it).  Setting `available` to
true, or omitting it, leaves `last_used` unchanged in both. -/
theorem C1_last_used_amended (c : Charger) (d : UpdateData) (now : Nat) :
    ((fastapi_apply_update c d now).last_used
        = if d.available = some false ∧ c.available = true then some now
          else c.last_used)
    ∧ ((flask_apply_update c d now).last_used
        = if d.available = some false then some now else c.last_used) :=
  ⟨fastapi_up_last_used c d now, flask_up_last_used c d now⟩

/-- Counterexample to claim C3 as stated: a Flask update whose supplied
field equals the record's current value (a no-op field set) succeeds
(returns the record, a 200 response) yet leaves `updated_at` unchanged —
with no net column change the ORM emits no UPDATE and the `onupdate`
refresh never runs. -/
theorem C3_counterexample :
    (flask_update_charger 2 setSameLocation [sampleUnavail] 9).2
      = some sampleUnavail
    ∧ sampleUnavail.updated_at = 0
    ∧ (0 : Nat) ≠ 9 := by
  decide

/-- Claim C3 (amended): the FastAPI implementation refreshes `updated_at`
to the current time on every successful update.  The Flask implementation
refreshes it exactly when some column value actually changes — counting
the handler's own `last_used` stamp, which a request setting `available`
to `false` rewrites even when `available` itself is unchanged; a
successful update causing no net column change (an empty field set, or
supplied fields equal to the current values without restamping
`last_used`) leaves `updated_at` unchanged. -/
theorem C3_updated_at_amended (c : Charger) (d : UpdateData) (now : Nat) :
    (fastapi_apply_update c d now).updated_at = now
    ∧ (flask_apply_fields c d now ≠ c →
        (flask_apply_update c d now).updated_at = now)
    ∧ (flask_apply_fields c d now = c →
        (flask_apply_update c d now).updated_at = c.updated_at) := by
  refine ⟨fastapi_up_updated_at c d now, fun h => ?_, fun h => ?_⟩
  · rw [flask_up_updated_at, if_neg h]
  · rw [flask_up_updated_at, if_pos h]

/-- Witness for C3: an update writing a fresh `notes` value refreshes
`updated_at` in both implementations. -/
theorem C3_witness :
    (fastapi_apply_update sampleAvail setNotes 7).updated_at = 7
    ∧ (flask_apply_update sampleAvail setNotes 7).updated_at = 7 :=
  ⟨(C3_updated_at_amended sampleAvail setNotes 7).1,
   (C3_updated_at_amended sampleAvail setNotes 7).2.1 (by decide)⟩

/-- Claim C6: in both implementations an update writes only the fields
present in the request body — every one of the five updatable fields that
is absent keeps its prior value — and `created_at` is never changed by
any update. -/
theorem C6_partial_update_frame (c : Charger) (d : UpdateData) (now : Nat) :
    (flask_apply_update c d now).created_at = c.created_at
    ∧ (fastapi_apply_update c d now).created_at = c.created_at
    ∧ (d.location = none →
        (flask_apply_update c d now).location = c.location
        ∧ (fastapi_apply_update c d now).location = c.location)
    ∧ (d.available = none →
        (flask_apply_update c d now).available = c.available
        ∧ (fastapi_apply_update c d now).available = c.available)
    ∧ (d.power = none →
        (flask_apply_update c d now).power = c.power
        ∧ (fastapi_apply_update c d now).power = c.power)
    ∧ (d.type = none →
        (flask_apply_update c d now).type = c.type
        ∧ (fastapi_apply_update c d now).type = c.type)
    ∧ (d.notes = none →
        (flask_apply_update c d now).notes = c.notes
        ∧ (fastapi_apply_update c d now).notes = c.notes) := by
  obtain ⟨f1, f2, f3, f4, f5⟩ := flask_up_frame c d now
  obtain ⟨g1, g2, g3, g4, g5⟩ := fastapi_up_frame c d now
  exact ⟨flask_up_created_at c d now, fastapi_up_created_at c d now,
    fun h => ⟨f1 h, g1 h⟩, fun h => ⟨f2 h, g2 h⟩, fun h => ⟨f3 h, g3 h⟩,
    fun h => ⟨f4 h, g4 h⟩, fun h => ⟨f5 h, g5 h⟩⟩

/-- Witness for C6: an update carrying only `notes` leaves `location` and
`created_at` untouched. -/
theorem C6_witness :
    (flask_apply_update sampleAvail setNotes 7).location = sampleAvail.location
    ∧ (flask_apply_update sampleAvail setNotes 7).created_at
      = sampleAvail.created_at :=
  ⟨((C6_partial_update_frame sampleAvail setNotes 7).2.2.1 rfl).1,
   (C6_partial_update_frame sampleAvail setNotes 7).1⟩

/-- Counterexample to claim C2 as stated: a create request whose
`location` is present but EMPTY is accepted by the Flask implementation —
the response is a success and a row is created (the record count grows
from 0 to 1), where the claim demands a 400 error and no new row. -/
theorem C2_counterexample :
    createEmptyLoc.location = some ""
    ∧ ((flask_add_charger createEmptyLoc [] 1 5).1).length = 1
    ∧ (flask_add_charger createEmptyLoc [] 1 5).2.toOption.isSome = true := by
  decide

/-- Claim C2 (amended): for every create request in which `location`,
`power` or `type` is ABSENT, the operation fails — Flask with the 400
body `{error: "Missing required field: <name>"}` for one of the three
names, FastAPI with a schema-validation error — and the store is returned
unchanged, so no row is created.  An empty-string value for these fields
is accepted by both implementations. -/
theorem C2_missing_required_field (d : CreateData) (store : List Charger)
    (nextId now : Nat)
    (h : d.location = none ∨ d.power = none ∨ d.type = none) :
    (flask_add_charger d store nextId now
        = (store, .error "Missing required field: location")
      ∨ flask_add_charger d store nextId now
        = (store, .error "Missing required field: power")
      ∨ flask_add_charger d store nextId now
        = (store, .error "Missing required field: type"))
    ∧ fastapi_add_charger d store nextId now = (store, .error ()) := by
  constructor
  · unfold flask_add_charger
    rcases hl : d.location with _ | lv
    · left
      simp [hl]
    · rcases hp : d.power with _ | pv
      · right; left
        simp [hl, hp]
      · rcases htp : d.type with _ | tv
        · right; right
          simp [hl, hp, htp]
        · rcases h with h | h | h <;> simp_all
  · unfold fastapi_add_charger
    rw [if_pos h]

/-- Witness for C2: creating with `location` absent fails in both
implementations and leaves the (empty) store unchanged. -/
theorem C2_witness :
    createNoLoc.location = none
    ∧ ((flask_add_charger createNoLoc [] 1 5
          = ([], .error "Missing required field: location")
        ∨ flask_add_charger createNoLoc [] 1 5
          = ([], .error "Missing required field: power")
        ∨ flask_add_charger createNoLoc [] 1 5
          = ([], .error "Missing required field: type"))
       ∧ fastapi_add_charger createNoLoc [] 1 5 = ([], .error ())) :=
  ⟨by decide, C2_missing_required_field createNoLoc [] 1 5 (by decide)⟩

/-- Counterexample to claim C4 as stated: the Flask create of the spec's
scenario body (available and notes omitted) yields a 201 record whose
`notes` is the empty string — not null — and whose `last_used` is the
creation time — not null (the column defaults of app.py line 27 and the
`data.get('notes', '')` of line 135). -/
theorem C4_counterexample :
    ((flask_add_charger createLotA [] 1 5).2.toOption.map
        (fun c => (c.notes, c.last_used))) = some (some "", some 5)
    ∧ (some "" : Option String) ≠ none
    ∧ (some 5 : Option Nat) ≠ none := by
  decide

/-- Claim C4 (amended): a successful create with `available` and `notes`
omitted returns 201 with `available = true` and the generated id in both
implementations; in the FastAPI implementation `notes` and `last_used`
are null as claimed, while in the Flask implementation `notes` defaults
to the empty string and `last_used` is stamped to the creation time. -/
theorem C4_create_defaults_amended (loc pw ty : String) (store : List Charger)
    (nextId now : Nat) :
    (fastapi_add_charger
        { location := some loc, available := none, power := some pw,
          type := some ty, notes := none } store nextId now).2
      = .ok { id := nextId, location := loc, available := true, power := pw,
              type := ty, notes := none, last_used := none,
              created_at := now, updated_at := now }
    ∧ (flask_add_charger
        { location := some loc, available := none, power := some pw,
          type := some ty, notes := none } store nextId now).2
      = .ok { id := nextId, location := loc, available := true, power := pw,
              type := ty, notes := some "", last_used := some now,
              created_at := now, updated_at := now } :=
  ⟨rfl, rfl⟩

/-- Counterexample to claim C5 as stated: the Flask list handler never
reads the `type` query parameter, so with filter `type=CCS` the result
still contains a record whose type is not CCS. -/
theorem C5_counterexample :
    sampleUnavail ∈ flask_get_chargers none (some "CCS")
      [sampleAvail, sampleUnavail]
    ∧ sampleUnavail.type ≠ "CCS" := by
  decide

/-- Claim C5 (amended): the FastAPI list operation returns exactly the
records matching each supplied filter by exact equality (absent filters
impose no restriction), and its boolean query parsing accepts the
case-insensitive true/false spellings.  The Flask implementation honours
only the `available` parameter — compared case-insensitively against
"true" — and ignores a `type` parameter entirely. -/
theorem C5_list_filters_amended (store : List Charger) (ab : Option Bool)
    (ty : Option String) (s : String) (tp : Option String) (c : Charger) :
    (c ∈ fastapi_get_chargers ab ty store ↔
       c ∈ store ∧ (∀ b, ab = some b → c.available = b)
         ∧ (∀ t, ty = some t → c.type = t))
    ∧ (c ∈ flask_get_chargers (some s) tp store ↔
       c ∈ store ∧ c.available = (pyLower s == "true"))
    ∧ flask_get_chargers none tp store = store := by
  refine ⟨?_, ?_, rfl⟩
  · unfold fastapi_get_chargers
    rcases ab with _ | b <;> rcases ty with _ | t <;>
      simp [List.mem_filter] <;> aesop
  · simp [flask_get_chargers, List.mem_filter]

/-- Witness for C5: membership under the case-insensitive "FALSE" filter
in the Flask implementation, instantiated at a concrete store. -/
theorem C5_witness :
    sampleUnavail ∈ flask_get_chargers (some "FALSE") none
      [sampleAvail, sampleUnavail]
      ↔ sampleUnavail ∈ [sampleAvail, sampleUnavail]
        ∧ sampleUnavail.available = (pyLower "FALSE" == "true") :=
  (C5_list_filters_amended [sampleAvail, sampleUnavail] none none "FALSE"
    none sampleUnavail).2.1

/-- Claim C8: starting from any table satisfying the timestamp invariant
(in particular the empty table) and running any trace of create, update
and delete requests under a monotone clock, every row always satisfies
`created_at ≤ updated_at` — in both implementations; and at the instant
of creation every successfully created row has `created_at = updated_at`,
both stamped to the creation time (the fields are non-nullable in the
model, so both are non-null). -/
theorem C8_timestamp_invariant (ops : List (Op × Nat)) (s : DBState) (t : Nat)
    (hinv : ChronoInv t s.store) (hmono : Mono t ops) :
    (∀ c ∈ (flask_run s ops).store, c.created_at ≤ c.updated_at)
    ∧ (∀ c ∈ (fastapi_run s ops).store, c.created_at ≤ c.updated_at)
    ∧ (∀ d store nextId now c,
        (flask_add_charger d store nextId now).2 = .ok c →
          c.created_at = now ∧ c.updated_at = now)
    ∧ (∀ d store nextId now c,
        (fastapi_add_charger d store nextId now).2 = .ok c →
          c.created_at = now ∧ c.updated_at = now) :=
  ⟨flask_run_inv ops s t hinv hmono,
   fastapi_run_inv ops s t hinv hmono,
   fun d store nextId now c h =>
     ⟨(flask_add_ok d store nextId now c h).1,
      (flask_add_ok d store nextId now c h).2.1⟩,
   fun d store nextId now c h =>
     ⟨(fastapi_add_ok d store nextId now c h).1,
      (fastapi_add_ok d store nextId now c h).2.1⟩⟩

/-- Witness for C8: the demonstration trace run from the empty table
under a monotone clock keeps `created_at ≤ updated_at` everywhere. -/
theorem C8_witness :
    Mono 0 demoOps
    ∧ ∀ c ∈ (flask_run { store := [], nextId := 1 } demoOps).store,
        c.created_at ≤ c.updated_at :=
  ⟨by decide,
   (C8_timestamp_invariant demoOps { store := [], nextId := 1 } 0
     (by intro c hc; cases hc) (by decide)).1⟩
